import Mathlib

/-!
Verification development for the discord-rss-bot repository.

The Python sources under `discord_rss_bot/` (`feeds.py`, `custom_message.py`,
`custom_filters.py`, `main.py`) are shallowly embedded below: pure helpers
become Lean functions on `String`/`List Char`, and the stateful pipeline
(`send_to_discord`, `check_feed`, `check_feeds`, `update_feed`) is embedded as
explicit state passing over a `World` record that models the feed-store
(`reader`) entries, the per-feed tag store, the webhook transport's responses
and the outbound requests that were made.

External collaborators (the `reader` library's tag store, BeautifulSoup's
`<img>` extraction, the `json` module, the HTTP transport) are modelled by
executable Lean functions; repository modules that are referenced but not part
of the given sources (`discord_rss_bot.markdown`, `discord_rss_bot.filter.*`)
are modelled from the specification and marked as such in their doc comments.
-/

/-! ## Python string primitives -/

/-- One scanning pass of CPython `str.replace` for a non-empty pattern:
left-to-right, non-overlapping occurrences of `pat` are replaced by `rep`.
`fuel` bounds the recursion; every call site passes the scanned list's length,
which suffices because each step consumes at least one character. -/
def replaceGo (pat rep : List Char) : Nat → List Char → List Char
  | _, [] => []
  | 0, l => l
  | fuel + 1, c :: rest =>
    if pat.isPrefixOf (c :: rest) then
      rep ++ replaceGo pat rep fuel (List.drop pat.length (c :: rest))
    else
      c :: replaceGo pat rep fuel rest

/-- CPython `str.replace` on character lists.  The empty-pattern branch mirrors
Python's behaviour of inserting the replacement at every position (it is never
reached by the embedded code, whose patterns are concrete non-empty tokens). -/
def pyReplaceL (pat rep l : List Char) : List Char :=
  if pat.isEmpty then rep ++ l.foldr (fun c acc => c :: (rep ++ acc)) []
  else replaceGo pat rep l.length l

/-- The `s.replace(pat, rep)` of CPython, on `String`. -/
def pyReplace (s pat rep : String) : String :=
  ⟨pyReplaceL pat.data rep.data s.data⟩

/-- Python's substring test `pat in s` on character lists. -/
def containsSub (pat : List Char) : List Char → Bool
  | [] => pat.isEmpty
  | c :: rest => pat.isPrefixOf (c :: rest) || containsSub pat rest

theorem containsSub_nil_left (l : List Char) : containsSub [] l = true := by
  cases l with
  | nil => rfl
  | cons c rest => simp [containsSub, List.isPrefixOf]

theorem replaceGo_of_not_contains (pat rep : List Char) :
    ∀ (fuel : Nat) (l : List Char), containsSub pat l = false →
      replaceGo pat rep fuel l = l := by
  intro fuel
  induction fuel with
  | zero =>
    intro l h
    cases l with
    | nil => rfl
    | cons c rest => rfl
  | succ f ih =>
    intro l h
    cases l with
    | nil => rfl
    | cons c rest =>
      have h2 : (pat.isPrefixOf (c :: rest) || containsSub pat rest) = false := h
      have hp : pat.isPrefixOf (c :: rest) = false := by
        cases hh : pat.isPrefixOf (c :: rest) with
        | true => rw [hh] at h2; simp at h2
        | false => rfl
      have hr : containsSub pat rest = false := by
        cases hh : containsSub pat rest with
        | true => rw [hh] at h2; simp at h2
        | false => rfl
      simp only [replaceGo, hp, Bool.false_eq_true, if_false]
      rw [ih rest hr]

theorem pyReplace_of_not_contains (m pat rep : String)
    (h : containsSub pat.data m.data = false) : pyReplace m pat rep = m := by
  have hpat : pat.data.isEmpty = false := by
    cases hd : pat.data with
    | nil => rw [hd] at h; rw [containsSub_nil_left] at h; simp at h
    | cons c cs => rfl
  show (⟨pyReplaceL pat.data rep.data m.data⟩ : String) = m
  rw [pyReplaceL, hpat]
  simp only [Bool.false_eq_true, if_false]
  rw [replaceGo_of_not_contains pat.data rep.data m.data.length m.data h]

/-! ## Python values passed to `str.replace`

`custom_message.py` passes raw feed/entry attributes to `str.replace`; those
attributes can be strings, `None`, `datetime` objects or exception objects.
`str.replace` raises `TypeError` unless the replacement is a string. -/

/-- A Python value as it appears as a replacement argument in
`custom_message.py`: a string, `None`, a `datetime`, or an exception object. -/
inductive PyVal where
  | pyStr (s : String)
  | pyNone
  | dt (t : Nat)
  | exc (msg : String)
deriving DecidableEq

/-- The `None` for a missing optional string attribute. -/
def optStr : Option String → PyVal
  | some s => PyVal.pyStr s
  | none => PyVal.pyNone

/-- The `None` or an (opaque) `datetime` object. -/
def optDt : Option Nat → PyVal
  | some t => PyVal.dt t
  | none => PyVal.pyNone

/-- The `None` or an `ExceptionInfo` object (`feed.last_exception`). -/
def optExc : Option String → PyVal
  | some m => PyVal.exc m
  | none => PyVal.pyNone

/-- Python `str(b)` for a `bool`. -/
def pyStrOfBool (b : Bool) : String := if b then "True" else "False"

/-- The `custom_message.replace(template, replace_with)`: succeeds only when the
replacement value is a string, otherwise raises `TypeError`. -/
def str_replace_py (custom_message template : String) (replace_with : PyVal) :
    Except String String :=
  match replace_with with
  | PyVal.pyStr s => Except.ok (pyReplace custom_message template s)
  | _ => Except.error "TypeError"

/-- The `try_to_replace` of `custom_message.py`: performs the replacement and
swallows `TypeError`/`AttributeError`/`ValueError`, returning the original
text on failure. -/
def try_to_replace (custom_message template : String) (replace_with : PyVal) :
    String :=
  match str_replace_py custom_message template replace_with with
  | Except.ok r => r
  | Except.error _ => custom_message

theorem try_to_replace_of_not_contains (m tok : String) (v : PyVal)
    (h : containsSub tok.data m.data = false) : try_to_replace m tok v = m := by
  cases v with
  | pyStr s =>
    show pyReplace m tok s = m
    exact pyReplace_of_not_contains m tok s h
  | pyNone => rfl
  | dt t => rfl
  | exc msg => rfl

theorem try_to_replace_of_nonstr (m tok : String) (v : PyVal)
    (h : ∀ s, v ≠ PyVal.pyStr s) : try_to_replace m tok v = m := by
  cases v with
  | pyStr s => exact absurd rfl (h s)
  | pyNone => rfl
  | dt t => rfl
  | exc msg => rfl

/-! ## HTML collaborators

BeautifulSoup's `find_all("img")` and the repository's
`discord_rss_bot.markdown.convert_html_to_md` (a module that is not part of
the given sources) are modelled as executable scanners over the raw markup. -/

/-- An `<img>` tag as BeautifulSoup reports it: its `src` and `alt`
attributes, each possibly absent. -/
structure ImgTag where
  src : Option String
  alt : Option String
deriving DecidableEq

/-- The single-quote character (code point 39). -/
def squoteChar : Char := Char.ofNat 39

/-- The double-quote character (code point 34). -/
def dquoteChar : Char := Char.ofNat 34

/-- Scan a tag body for a quoted `name=value` attribute and return the value.
Models BeautifulSoup attribute access for simple well-formed tags. -/
def attrValue (name : List Char) : List Char → Option (List Char)
  | [] => none
  | c :: rest =>
    if (name ++ ['=']).isPrefixOf (c :: rest) then
      match List.drop name.length rest with
      | q :: vs =>
        if q == squoteChar || q == dquoteChar then
          some (vs.takeWhile (fun x => x != q))
        else none
      | [] => none
    else attrValue name rest

/-- Is the character following `img` a tag-name boundary? -/
def isImgBoundary : List Char → Bool
  | [] => true
  | c :: _ => c == ' ' || c == '/' || c == '>' || c == '\t' || c == '\n'

/-- All `<img>` elements of an HTML fragment in document order, with their
`src` and `alt` attributes.  Models BeautifulSoup's `find_all("img")` for the
simple markup the bot receives (attribute values without `<`). -/
def findImgs : List Char → List ImgTag
  | [] => []
  | c :: rest =>
    if c == '<' && "img".data.isPrefixOf rest && isImgBoundary (List.drop 3 rest) then
      let body := rest.takeWhile (fun x => x != '>')
      { src := (attrValue "src".data body).map (fun l => ⟨l⟩),
        alt := (attrValue "alt".data body).map (fun l => ⟨l⟩) } :: findImgs rest
    else findImgs rest

/-- Modelled from the spec: `convert_html_to_md` lives in
`discord_rss_bot.markdown`, a module absent from the given sources; the spec
describes it as the external text-transform collaborator
`html_to_plain(markup) -> text` that converts rich markup to plain readable
text (tables stripped).  Modelled as removal of every `<...>` tag, keeping
the text content. -/
def stripTagsGo : Bool → List Char → List Char
  | _, [] => []
  | inTag, c :: rest =>
    if c == '<' then stripTagsGo true rest
    else if inTag then
      if c == '>' then stripTagsGo false rest else stripTagsGo true rest
    else c :: stripTagsGo false rest

/-- Modelled from the spec: the text-transform collaborator used by
`custom_message.py` as `convert_html_to_md`. -/
def convert_html_to_md (s : String) : String :=
  ⟨stripTagsGo false s.data⟩

/-! ## Data model -/

/-- One content variant of an entry (`entry.content[i]`), carrying its value. -/
structure ContentItem where
  value : String
deriving DecidableEq

/-- A feed-store entry as `feeds.py`/`custom_message.py` read it. -/
structure Entry where
  id : String
  feedUrl : String
  title : Option String
  link : Option String
  author : Option String
  summary : Option String
  content : List ContentItem
  added : Nat
  published : Option Nat
  updated : Option Nat
  read_modified : Option Nat
  read : Bool
  important : Bool
deriving DecidableEq

/-- A feed as `custom_message.py` reads it. -/
structure Feed where
  url : String
  title : Option String
  subtitle : Option String
  link : Option String
  author : Option String
  user_title : Option String
  version : Option String
  added : Option Nat
  updated : Option Nat
  last_updated : Option Nat
  last_exception : Option String
  updates_enabled : Bool
deriving DecidableEq

/-- The JSON object stored under a feed's `embed` tag: the dictionary that
`json.dumps`/`json.loads` round-trip (the `json` module itself is the external
collaborator and is modelled as the identity on this record). Fields absent
from the stored object are `none`. -/
structure EmbedDict where
  title : Option String
  description : Option String
  color : Option Int
  author_name : Option String
  author_url : Option String
  author_icon_url : Option String
  image_url : Option String
  thumbnail_url : Option String
  footer_text : Option String
  footer_icon_url : Option String
deriving DecidableEq

/-- The `CustomEmbed` of `custom_message.py`: nine string fields and an integer
color. -/
structure CustomEmbed where
  title : String
  description : String
  color : Int
  author_name : String
  author_url : String
  author_icon_url : String
  image_url : String
  thumbnail_url : String
  footer_text : String
  footer_icon_url : String
deriving DecidableEq

/-- The per-feed tags the embedded code reads.  `none` is an unset tag
(`TagNotFoundError` from the reader). -/
structure FeedTags where
  webhook : Option String := none
  custom_message : Option String := none
  embed : Option EmbedDict := none
  whitelist_title : Option String := none
  whitelist_summary : Option String := none
  whitelist_content : Option String := none
  blacklist_title : Option String := none
  blacklist_summary : Option String := none
  blacklist_content : Option String := none
deriving DecidableEq

/-- Python truthiness of a tag value: a missing tag and the empty string are
falsy. -/
def truthy_str : Option String → Option String
  | some s => if s == "" then none else some s
  | none => none

/-! ## `get_images_from_entry` (custom_message.py) -/

/-- The exceptions the image-extraction/rendering path can raise:
BeautifulSoup item access `image["src"]` raises `KeyError` when the attribute
is absent (custom_message.py line 39 uses `image["src"]`, not `.get`). -/
inductive RenderErr where
  | keyError (key : String)
deriving DecidableEq

/-- The loop body of `return_image`: `image_src = image["src"] or ""` — the
BeautifulSoup item access raises `KeyError` when the `src` attribute is
absent — and alt text defaulting to `"Link to image"` when `image.get("alt")`
is absent or empty. -/
def img_pair (img : ImgTag) : Except RenderErr (String × String) :=
  match img.src with
  | none => Except.error (RenderErr.keyError "src")
  | some s =>
    let image_src := if s == "" then "" else s
    let image_alt := match img.alt with
      | some a => if a == "" then "Link to image" else a
      | none => "Link to image"
    Except.ok (image_src, image_alt)

/-- The `return_image` of `custom_message.py`: returns (from inside the loop) a
one-element list for the first `<img>` found, or Python `None` when the
fragment has no `<img>` (the loop body is never entered); the loop body's
`KeyError` propagates. -/
def return_image (found_images : String) :
    Except RenderErr (Option (List (String × String))) :=
  match findImgs found_images.data with
  | [] => Except.ok none
  | img :: _ =>
    match img_pair img with
    | Except.ok p => Except.ok (some [p])
    | Except.error e => Except.error e

/-- The summary stage of `get_images_from_entry`: the initial `images = []`,
overwritten by the summary scan when the summary is truthy (whose `KeyError`,
if any, propagates before the content is ever looked at). -/
def summary_images (entry : Entry) :
    Except RenderErr (Option (List (String × String))) :=
  match entry.summary with
  | some s => if s == "" then Except.ok (some []) else return_image s
  | none => Except.ok (some [])

/-- The `get_images_from_entry` of `custom_message.py`: starts with `[]`, scans
the summary when truthy, then unconditionally overwrites the result with the
scan of `content[0].value` when the entry has content; a `KeyError` from
either scan propagates to the caller. -/
def get_images_from_entry (entry : Entry) :
    Except RenderErr (Option (List (String × String))) :=
  match summary_images entry with
  | Except.error e => Except.error e
  | Except.ok images =>
    match entry.content with
    | ci :: _ => return_image ci.value
    | [] => Except.ok images

/-! ## `replace_tags_in_text_message` (custom_message.py) -/

/-- The `get_custom_message` of `custom_message.py`: the feed's `custom_message`
tag, or `""` when the tag is not set. -/
def get_custom_message (tags : FeedTags) : String :=
  tags.custom_message.getD ""

/-- The converted summary: `""` unless `entry.summary` is truthy, in which
case `convert_html_to_md(entry.summary)`. -/
def summary_conv (entry : Entry) : String :=
  match entry.summary with
  | some s => if s == "" then "" else convert_html_to_md s
  | none => ""

/-- The converted content: the loop `for content_item in entry.content`
overwrites `content` each iteration, so the result is the conversion of the
last variant (or `""` when there is no content). -/
def content_conv (entry : Entry) : String :=
  match entry.content.getLast? with
  | some ci => convert_html_to_md ci.value
  | none => ""

/-- The `first_image` computation of the renderers:
`if images := get_images_from_entry(entry): first_image = images[0][0]` with
`""` otherwise — the call can raise `KeyError`, which propagates out of the
render. -/
def first_image (entry : Entry) : Except RenderErr String :=
  match get_images_from_entry entry with
  | Except.error e => Except.error e
  | Except.ok (some (p :: _)) => Except.ok p.1
  | Except.ok _ => Except.ok ""

/-- The `entry.content[0].value if entry.content else ""`. -/
def content_raw (entry : Entry) : String :=
  match entry.content with
  | ci :: _ => ci.value
  | [] => ""

/-- The `list_of_replacements` of `replace_tags_in_text_message`, in source
order; each pair is one single-key dict of the Python list.  `first_image` is
the already-computed local of the same name (the image extraction happens —
and can raise — before the list is built). -/
def list_of_replacements (feed : Feed) (entry : Entry) (first_image : String) :
    List (String × PyVal) :=
  let summary := summary_conv entry
  let content := content_conv entry
  let entry_text := if content == "" then summary else content
  [("{{feed_author}}", optStr feed.author),
   ("{{feed_added}}", optDt feed.added),
   ("{{feed_last_exception}}", optExc feed.last_exception),
   ("{{feed_last_updated}}", optDt feed.last_updated),
   ("{{feed_link}}", optStr feed.link),
   ("{{feed_subtitle}}", optStr feed.subtitle),
   ("{{feed_title}}", optStr feed.title),
   ("{{feed_updated}}", optDt feed.updated),
   ("{{feed_updates_enabled}}", PyVal.pyStr (pyStrOfBool feed.updates_enabled)),
   ("{{feed_url}}", PyVal.pyStr feed.url),
   ("{{feed_user_title}}", optStr feed.user_title),
   ("{{feed_version}}", optStr feed.version),
   ("{{entry_added}}", PyVal.dt entry.added),
   ("{{entry_author}}", optStr entry.author),
   ("{{entry_content}}", PyVal.pyStr content),
   ("{{entry_content_raw}}", PyVal.pyStr (content_raw entry)),
   ("{{entry_id}}", PyVal.pyStr entry.id),
   ("{{entry_important}}", PyVal.pyStr (pyStrOfBool entry.important)),
   ("{{entry_link}}", optStr entry.link),
   ("{{entry_published}}", optDt entry.published),
   ("{{entry_read}}", PyVal.pyStr (pyStrOfBool entry.read)),
   ("{{entry_read_modified}}", optDt entry.read_modified),
   ("{{entry_summary}}", PyVal.pyStr summary),
   ("{{entry_summary_raw}}", PyVal.pyStr (entry.summary.getD "")),
   ("{{entry_text}}", PyVal.pyStr entry_text),
   ("{{entry_title}}", optStr entry.title),
   ("{{entry_updated}}", optDt entry.updated),
   ("{{image_1}}", PyVal.pyStr first_image)]

/-- The recognized placeholder tokens, in substitution order. -/
def token_strings : List String :=
  ["{{feed_author}}", "{{feed_added}}", "{{feed_last_exception}}",
   "{{feed_last_updated}}", "{{feed_link}}", "{{feed_subtitle}}",
   "{{feed_title}}", "{{feed_updated}}", "{{feed_updates_enabled}}",
   "{{feed_url}}", "{{feed_user_title}}", "{{feed_version}}",
   "{{entry_added}}", "{{entry_author}}", "{{entry_content}}",
   "{{entry_content_raw}}", "{{entry_id}}", "{{entry_important}}",
   "{{entry_link}}", "{{entry_published}}", "{{entry_read}}",
   "{{entry_read_modified}}", "{{entry_summary}}", "{{entry_summary_raw}}",
   "{{entry_text}}", "{{entry_title}}", "{{entry_updated}}", "{{image_1}}"]

theorem list_of_replacements_fst (feed : Feed) (entry : Entry) (fi : String) :
    (list_of_replacements feed entry fi).map Prod.fst = token_strings := rfl

/-- The substitution loop of `replace_tags_in_text_message`. -/
def apply_replacements (msg : String) (reps : List (String × PyVal)) : String :=
  reps.foldl (fun m p => try_to_replace m p.1 p.2) msg

/-- The `replace_tags_in_text_message` of `custom_message.py`: fetch the feed's
`custom_message` tag, extract the representative image (a `KeyError` raised
there propagates out of the render), run the substitution loop, then convert
literal `\n` escapes to newlines. -/
def replace_tags_in_text_message (tags : FeedTags) (feed : Feed) (entry : Entry) :
    Except RenderErr String :=
  match first_image entry with
  | Except.error e => Except.error e
  | Except.ok fi =>
    Except.ok (pyReplace
      (apply_replacements (get_custom_message tags) (list_of_replacements feed entry fi))
      "\\n" "\n")

theorem apply_replacements_id (msg : String) :
    ∀ reps : List (String × PyVal),
      (∀ p ∈ reps, containsSub p.1.data msg.data = false ∨ ∀ s, p.2 ≠ PyVal.pyStr s) →
      apply_replacements msg reps = msg := by
  intro reps
  induction reps with
  | nil => intro h; rfl
  | cons p ps ih =>
    intro h
    have hstep : try_to_replace msg p.1 p.2 = msg := by
      rcases h p (List.mem_cons_self p ps) with hc | hv
      · exact try_to_replace_of_not_contains msg p.1 p.2 hc
      · exact try_to_replace_of_nonstr msg p.1 p.2 hv
    show apply_replacements (try_to_replace msg p.1 p.2) ps = msg
    rw [hstep]
    exact ih (fun q hq => h q (List.mem_cons_of_mem p hq))

/-! ## Embed storage (custom_message.py) -/

/-- The `embed_dict` built inside `save_embed` of `custom_message.py`:
all ten fields of the record, serialized (the `json.dumps`/`json.loads`
round-trip of the external `json` module is modelled as identity on this
dictionary). -/
def embed_dict (embed : CustomEmbed) : EmbedDict :=
  { title := some embed.title,
    description := some embed.description,
    color := some embed.color,
    author_name := some embed.author_name,
    author_url := some embed.author_url,
    author_icon_url := some embed.author_icon_url,
    image_url := some embed.image_url,
    thumbnail_url := some embed.thumbnail_url,
    footer_text := some embed.footer_text,
    footer_icon_url := some embed.footer_icon_url }

/-- The `save_embed` stores the dictionary under the feed's `embed` tag. -/
def save_embed (tags : FeedTags) (embed : CustomEmbed) : FeedTags :=
  { tags with embed := some (embed_dict embed) }

/-- The `get_embed_data` of `custom_message.py`: `embed_data.get(key, default)`
for each field, with `""` defaults and default color `32896`. -/
def get_embed_data (embed_data : EmbedDict) : CustomEmbed :=
  { title := embed_data.title.getD "",
    description := embed_data.description.getD "",
    color := embed_data.color.getD 32896,
    author_name := embed_data.author_name.getD "",
    author_url := embed_data.author_url.getD "",
    author_icon_url := embed_data.author_icon_url.getD "",
    image_url := embed_data.image_url.getD "",
    thumbnail_url := embed_data.thumbnail_url.getD "",
    footer_text := embed_data.footer_text.getD "",
    footer_icon_url := embed_data.footer_icon_url.getD "" }

/-- The all-empty default embed returned when no `embed` tag is set. -/
def default_embed : CustomEmbed :=
  { title := "", description := "", color := 32896, author_name := "",
    author_url := "", author_icon_url := "", image_url := "",
    thumbnail_url := "", footer_text := "", footer_icon_url := "" }

/-- The `get_embed` of `custom_message.py`: parse the `embed` tag when set
(a stored dictionary is always truthy), else the default record. -/
def get_embed (tags : FeedTags) : CustomEmbed :=
  match tags.embed with
  | some embed_data => get_embed_data embed_data
  | none => default_embed

/-! ## Rule Evaluator (custom_filters.py and the spec-modelled filter module) -/

/-- Is a delimiter of the whitelist/blacklist word lists (whitespace or
comma). -/
def isDelim (c : Char) : Bool :=
  c == ' ' || c == ',' || c == '\t' || c == '\n'

/-- Split into delimiter-separated chunks (possibly empty). -/
def splitWordsL : List Char → List (List Char)
  | [] => [[]]
  | c :: rest =>
    let r := splitWordsL rest
    if isDelim c then [] :: r
    else
      match r with
      | w :: ws => (c :: w) :: ws
      | [] => [[c]]

/-- The configured substrings of a tag value: non-empty chunks between
whitespace/comma delimiters. -/
def split_words (l : List Char) : List (List Char) :=
  (splitWordsL l).filter (fun w => !w.isEmpty)

/-- Lower-case character data of a string (case-insensitive matching). -/
def lcData (s : String) : List Char := s.data.map Char.toLower

/-- Does any configured substring of `tagVal` occur (case-insensitively) in
`fieldVal`? -/
def any_word_matches (tagVal fieldVal : String) : Bool :=
  (split_words (lcData tagVal)).any (fun w => containsSub w (lcData fieldVal))

/-- The entry field a rule category inspects: title, summary, or the first
content variant's value. -/
def rule_field (entry : Entry) : Nat → Option String
  | 0 => entry.title
  | 1 => entry.summary
  | _ => match entry.content with
         | ci :: _ => some ci.value
         | [] => none

/-- Modelled from the spec: `has_white_tags` of
`discord_rss_bot.filter.whitelist` (module absent from the given sources):
the whitelist is active if at least one of the three whitelist tags is
non-empty. -/
def has_white_tags (tags : FeedTags) : Bool :=
  (truthy_str tags.whitelist_title).isSome
    || (truthy_str tags.whitelist_summary).isSome
    || (truthy_str tags.whitelist_content).isSome

/-- Modelled from the spec: one whitelist category check — a category with no
tag configured is skipped (treated as non-restrictive); an active category
matches only when some configured substring occurs case-insensitively in the
corresponding entry field, and fails when the field is absent. -/
def white_category_ok (tag field : Option String) : Bool :=
  match truthy_str tag with
  | some tv =>
    match field with
    | some fv => any_word_matches tv fv
    | none => false
  | none => true

/-- Modelled from the spec: `should_be_sent` of
`discord_rss_bot.filter.whitelist` (module absent from the given sources):
every active whitelist category must match. -/
def should_be_sent (tags : FeedTags) (entry : Entry) : Bool :=
  white_category_ok tags.whitelist_title (rule_field entry 0)
    && white_category_ok tags.whitelist_summary (rule_field entry 1)
    && white_category_ok tags.whitelist_content (rule_field entry 2)

/-- Modelled from the spec: `has_black_tags` of
`discord_rss_bot.filter.blacklist` (module absent from the given sources). -/
def has_black_tags (tags : FeedTags) : Bool :=
  (truthy_str tags.blacklist_title).isSome
    || (truthy_str tags.blacklist_summary).isSome
    || (truthy_str tags.blacklist_content).isSome

/-- Modelled from the spec: one blacklist category hit — an active category
whose configured substrings match the corresponding field. -/
def black_category_hit (tag field : Option String) : Bool :=
  match truthy_str tag with
  | some tv =>
    match field with
    | some fv => any_word_matches tv fv
    | none => false
  | none => false

/-- Modelled from the spec: `should_be_skipped` of
`discord_rss_bot.filter.blacklist` (module absent from the given sources):
a match in any one active category suffices to reject. -/
def should_be_skipped (tags : FeedTags) (entry : Entry) : Bool :=
  black_category_hit tags.blacklist_title (rule_field entry 0)
    || black_category_hit tags.blacklist_summary (rule_field entry 1)
    || black_category_hit tags.blacklist_content (rule_field entry 2)

/-- The `entry_is_whitelisted` of `custom_filters.py`:
`has_white_tags and should_be_sent`. -/
def entry_is_whitelisted (tags : FeedTags) (entry : Entry) : Bool :=
  has_white_tags tags && should_be_sent tags entry

/-- The `entry_is_blacklisted` of `custom_filters.py`:
`has_black_tags and should_be_skipped`. -/
def entry_is_blacklisted (tags : FeedTags) (entry : Entry) : Bool :=
  has_black_tags tags && should_be_skipped tags entry

/-- Modelled from the spec: the Rule Evaluator's admission decision
`admit(entry) -> bool` (§4.1) — the whitelist check passes trivially when the
whitelist is inactive, and final admission is the whitelist check and not
being blacklisted. No function of the given sources implements this
composition; it is the spec's contract for the evaluator. -/
def evaluator_admits (tags : FeedTags) (entry : Entry) : Bool :=
  (if has_white_tags tags then should_be_sent tags entry else true)
    && !(if has_black_tags tags then should_be_skipped tags entry else false)

/-! ## Dispatcher and orchestrator state (feeds.py) -/

/-- The feed-store errors `reader.update_feed`/`reader.update_feeds` can
raise and `update_feed` of `feeds.py` catches. -/
inductive FeedErr where
  | feedNotFound
  | parseError
  | storageError
deriving DecidableEq

/-- The exceptions that can escape the embedded pipeline functions:
the reader library's `TagNotFoundError` (raised by a bare `get_tag` on a
missing tag), the repository's `NoWebhookFoundError`, and the feed-store
errors of the refresh. -/
inductive PipeErr where
  | tagNotFound (resource key : String)
  | noWebhookFound (feedUrl : String)
  | feedStore (err : FeedErr)
deriving DecidableEq

/-- The `IfFeedError` of `feeds.py`. -/
structure IfFeedError where
  feed_url : String
  webhook : String
  error : Bool
  err_msg : String := ""
  exception : String := ""
deriving DecidableEq

/-- The world the pipeline acts on: the feed-store's entries, the tag store,
what the next `reader.update_feed(s)` call raises (`none` for success), the
webhook transport's success oracle per destination URL, and the log of
outbound webhook posts `(url, content)`. -/
structure World where
  entries : List Entry
  tags : String → FeedTags
  updateResult : Option FeedErr
  respOk : String → Bool
  sent : List (String × String)

/-- Do two entries denote the same stored entry (`(feed_url, id)` key)? -/
def entry_key (a b : Entry) : Bool :=
  a.id == b.id && a.feedUrl == b.feedUrl

/-- The `reader.mark_entry_as_read` / `mark_entry_as_unread`: set the read flag
of the stored entry. -/
def mark_entry_read (e : Entry) (b : Bool) (l : List Entry) : List Entry :=
  l.map (fun x => if entry_key x e then { x with read := b } else x)

/-- The stored read flag of an entry (by key), `none` when not stored. -/
def readFlagL (l : List Entry) (e : Entry) : Option Bool :=
  (l.find? (fun x => entry_key x e)).map Entry.read

/-- The read flag of `e` in the world's entry store. -/
def readFlag (w : World) (e : Entry) : Option Bool :=
  readFlagL w.entries e

/-- The Discord message content built in `send_to_discord`
(f-string rendering of a possibly-`None` attribute). -/
def pyStrOfOpt : Option String → String
  | some s => s
  | none => "None"

/-- The webhook payload content of `send_to_discord`. -/
def message_content (e : Entry) : String :=
  ":robot: :mega: New entry: " ++ pyStrOfOpt e.title ++ "\n" ++ pyStrOfOpt e.link

/-- The `send_to_discord` of `feeds.py`: mark the entry read, then read the
feed's `webhook` tag with a bare `reader.get_tag` — a feed with no such tag
makes the reader raise `TagNotFoundError`, uncaught (every other `get_tag`
call site in the repository wraps it, this one does not); only a tag that
exists with a falsy (empty) value reaches the `if not webhook_url` branch and
raises the repository's `NoWebhookFoundError`.  In both abort cases the entry
stays as just marked.  Otherwise post the payload and revert the entry to
unread when the response is not ok; the returned value is the response's ok
flag. -/
def send_to_discord (w : World) (e : Entry) : World × Except PipeErr Bool :=
  let w1 : World := { w with entries := mark_entry_read e true w.entries }
  match (w1.tags e.feedUrl).webhook with
  | none => (w1, Except.error (PipeErr.tagNotFound e.feedUrl "webhook"))
  | some webhook_url =>
    if webhook_url == "" then
      (w1, Except.error (PipeErr.noWebhookFound e.feedUrl))
    else
      let ok := w1.respOk webhook_url
      let w2 : World :=
        { w1 with sent := w1.sent ++ [(webhook_url, message_content e)] }
      if ok then (w2, Except.ok true)
      else
        ({ w2 with entries := mark_entry_read e false w2.entries },
         Except.ok false)

/-- The dispatch loop shared by `check_feed` and `check_feeds`: send each
entry in order; an exception raised by `send_to_discord` propagates,
abandoning the remaining entries. -/
def send_all : World → List Entry → World × Except PipeErr Unit
  | w, [] => (w, Except.ok ())
  | w, e :: rest =>
    match send_to_discord w e with
    | (w1, Except.error err) => (w1, Except.error err)
    | (w1, Except.ok _) => send_all w1 rest

/-- The unread entries of one feed, in stored order. -/
def unread_entries (w : World) (url : String) : List Entry :=
  w.entries.filter (fun e => e.feedUrl == url && !e.read)

/-- The `check_feed` of `feeds.py`: `reader.update_feed(feed_url)` (whose error,
if any, propagates — there is no handler), then send every unread entry of
the feed to Discord. -/
def check_feed (w : World) (feed_url : String) : World × Except PipeErr Unit :=
  match w.updateResult with
  | some err => (w, Except.error (PipeErr.feedStore err))
  | none => send_all w (unread_entries w feed_url)

/-- The `check_feeds` of `feeds.py`: `reader.update_feeds()` (whose error, if
any, propagates — there is no handler), then send every unread entry of every
feed to Discord. -/
def check_feeds (w : World) : World × Except PipeErr Unit :=
  match w.updateResult with
  | some err => (w, Except.error (PipeErr.feedStore err))
  | none => send_all w (w.entries.filter (fun e => !e.read))

/-- The `update_feed` of `feeds.py` (the repository helper, distinct from
`reader.update_feed`): catches `FeedNotFoundError`, `ParseError` and
`StorageError`, returning a structured `IfFeedError` descriptor instead of
propagating. -/
def update_feed (w : World) (feed_url webhook : String) : IfFeedError :=
  match w.updateResult with
  | some FeedErr.feedNotFound =>
    { feed_url := feed_url, webhook := webhook, error := true,
      err_msg := "Feed not found" }
  | some FeedErr.parseError =>
    { feed_url := feed_url, webhook := webhook, error := true,
      err_msg := "An error occurred while getting/parsing feed" }
  | some FeedErr.storageError =>
    { feed_url := feed_url, webhook := webhook, error := true,
      err_msg := "An exception was raised by the underlying storage" }
  | none => { feed_url := feed_url, webhook := webhook, error := false }

/-! ## Read-flag bookkeeping lemmas -/

theorem entry_key_mark (x e : Entry) (b : Bool) :
    entry_key { x with read := b } e = entry_key x e := rfl

theorem readFlagL_mark (e : Entry) (b : Bool) :
    ∀ l : List Entry, (readFlagL l e).isSome = true →
      readFlagL (mark_entry_read e b l) e = some b := by
  intro l
  induction l with
  | nil => intro h; simp [readFlagL] at h
  | cons x rest ih =>
    intro h
    cases hk : entry_key x e with
    | true =>
      show readFlagL (List.map _ (x :: rest)) e = some b
      rw [List.map_cons]
      show readFlagL ((if entry_key x e then { x with read := b } else x) :: _) e = some b
      rw [hk]
      simp only [if_pos]
      show ((({ x with read := b } : Entry) :: _).find? (fun y => entry_key y e)).map Entry.read = some b
      rw [List.find?_cons_of_pos _ (by rw [entry_key_mark, hk])]
      rfl
    | false =>
      have hrest : (readFlagL rest e).isSome = true := by
        rw [readFlagL] at h
        rw [List.find?_cons_of_neg _ (by rw [hk]; exact Bool.false_ne_true)] at h
        exact h
      show readFlagL (List.map _ (x :: rest)) e = some b
      rw [List.map_cons]
      show readFlagL ((if entry_key x e then { x with read := b } else x) :: _) e = some b
      rw [hk]
      simp only [Bool.false_eq_true, if_false]
      show ((x :: mark_entry_read e b rest).find? (fun y => entry_key y e)).map Entry.read = some b
      rw [List.find?_cons_of_neg _ (by rw [hk]; exact Bool.false_ne_true)]
      exact ih hrest

/-! ## Dispatch case equations -/

theorem send_to_discord_no_tag (w : World) (e : Entry)
    (hwh : (w.tags e.feedUrl).webhook = none) :
    send_to_discord w e =
      ({ w with entries := mark_entry_read e true w.entries },
       Except.error (PipeErr.tagNotFound e.feedUrl "webhook")) := by
  simp only [send_to_discord, hwh]

theorem send_to_discord_empty_tag (w : World) (e : Entry)
    (hwh : (w.tags e.feedUrl).webhook = some "") :
    send_to_discord w e =
      ({ w with entries := mark_entry_read e true w.entries },
       Except.error (PipeErr.noWebhookFound e.feedUrl)) := by
  simp only [send_to_discord, hwh]
  rfl

theorem send_to_discord_some (w : World) (e : Entry) (url : String)
    (hwh : truthy_str ((w.tags e.feedUrl).webhook) = some url) :
    send_to_discord w e =
      (if w.respOk url then
        { w with entries := mark_entry_read e true w.entries,
                 sent := w.sent ++ [(url, message_content e)] }
       else
        { w with entries := mark_entry_read e false (mark_entry_read e true w.entries),
                 sent := w.sent ++ [(url, message_content e)] },
       Except.ok (w.respOk url)) := by
  have hws : (w.tags e.feedUrl).webhook = some url ∧ (url == "") = false := by
    cases hx : (w.tags e.feedUrl).webhook with
    | none => rw [hx] at hwh; simp [truthy_str] at hwh
    | some s =>
      rw [hx] at hwh
      cases hse : s == "" with
      | true => simp [truthy_str, hse] at hwh
      | false =>
        simp [truthy_str, hse] at hwh
        subst hwh
        exact ⟨rfl, hse⟩
  simp only [send_to_discord, hws.1, hws.2, Bool.false_eq_true, if_false]
  cases h : w.respOk url <;> simp [h]

/-! ## Sample data for witnesses and counterexamples -/

/-- A fully-populated sample feed. -/
def feedA : Feed :=
  { url := "https://example.com/rss", title := some "Example",
    subtitle := some "Sub", link := some "https://example.com",
    author := some "Alice", user_title := some "Ex", version := some "rss20",
    added := some 1, updated := some 2, last_updated := some 3,
    last_exception := none, updates_enabled := true }

/-- A minimal unread sample entry. -/
def entry0 : Entry :=
  { id := "e0", feedUrl := "f0", title := some "Title",
    link := some "https://example.com/a", author := some "Bob",
    summary := none, content := [], added := 10, published := none,
    updated := none, read_modified := none, read := false, important := false }

/-! ## C1 -/

/-- C1 (amended): for a feed with NO `webhook` tag, the bare
`reader.get_tag` in `send_to_discord` raises the reader's `TagNotFoundError`,
uncaught — the repository's `NoWebhookFoundError` fires only when the tag
exists with a falsy (empty) value; and in neither abort case does the entry
remain unread: it was marked read at the start of `send_to_discord` and the
abort does not revert that, so its read flag afterwards is `true`. -/
theorem c1_no_webhook_raises_but_leaves_read (w : World) (e : Entry)
    (hpre : readFlag w e = some false) :
    ((w.tags e.feedUrl).webhook = none →
      (send_to_discord w e).2
          = Except.error (PipeErr.tagNotFound e.feedUrl "webhook")
      ∧ readFlag (send_to_discord w e).1 e = some true)
    ∧ ((w.tags e.feedUrl).webhook = some "" →
      (send_to_discord w e).2 = Except.error (PipeErr.noWebhookFound e.feedUrl)
      ∧ readFlag (send_to_discord w e).1 e = some true) := by
  have hin : (readFlagL w.entries e).isSome = true := by
    rw [show readFlagL w.entries e = some false from hpre]
    rfl
  constructor
  · intro hwh
    rw [send_to_discord_no_tag w e hwh]
    exact ⟨rfl, readFlagL_mark e true w.entries hin⟩
  · intro hwh
    rw [send_to_discord_empty_tag w e hwh]
    exact ⟨rfl, readFlagL_mark e true w.entries hin⟩

def entryC1 : Entry := { entry0 with id := "e1", feedUrl := "f1" }

def worldC1 : World :=
  { entries := [entryC1], tags := fun _ => {}, updateResult := none,
    respOk := fun _ => true, sent := [] }

/-- C1 counterexample: with no `webhook` tag on the feed, `send_to_discord`
raises the reader's `TagNotFoundError`, which is a different exception from
the claimed `NoWebhookFoundError`, and the entry's read flag afterwards is
`true`, not its pre-dispatch value `false` as the claim states. -/
theorem c1_counterexample :
    (worldC1.tags "f1").webhook = none
    ∧ readFlag worldC1 entryC1 = some false
    ∧ (send_to_discord worldC1 entryC1).2
        = Except.error (PipeErr.tagNotFound "f1" "webhook")
    ∧ PipeErr.tagNotFound "f1" "webhook" ≠ PipeErr.noWebhookFound "f1"
    ∧ readFlag (send_to_discord worldC1 entryC1).1 entryC1 = some true
    ∧ readFlag (send_to_discord worldC1 entryC1).1 entryC1 ≠ some false :=
  ⟨rfl, rfl, rfl, by decide, rfl, by decide⟩

def worldC1e : World :=
  { entries := [entryC1], tags := fun _ => { webhook := some "" },
    updateResult := none, respOk := fun _ => true, sent := [] }

/-- C1 witness: the amended theorem applied to a concrete unset-tag world
and a concrete empty-tag world. -/
theorem c1_witness :
    ((send_to_discord worldC1 entryC1).2
        = Except.error (PipeErr.tagNotFound "f1" "webhook")
      ∧ readFlag (send_to_discord worldC1 entryC1).1 entryC1 = some true)
    ∧ ((send_to_discord worldC1e entryC1).2
        = Except.error (PipeErr.noWebhookFound "f1")
      ∧ readFlag (send_to_discord worldC1e entryC1).1 entryC1 = some true) :=
  ⟨(c1_no_webhook_raises_but_leaves_read worldC1 entryC1 rfl).1 rfl,
   (c1_no_webhook_raises_but_leaves_read worldC1e entryC1 rfl).2 rfl⟩

/-! ## C3 -/

/-- C3: for an entry dispatched to a bound webhook, the read flag after
dispatch tracks the response: on a non-2xx response it equals `false` (the
pre-dispatch value — the optimistic mark is reverted), on a 2xx response it
equals `true`; the response is returned, not raised. -/
theorem c3_read_flag_tracks_response (w : World) (e : Entry) (url : String)
    (hwh : truthy_str ((w.tags e.feedUrl).webhook) = some url)
    (hin : (readFlag w e).isSome = true) :
    (w.respOk url = false → readFlag (send_to_discord w e).1 e = some false)
    ∧ (w.respOk url = true → readFlag (send_to_discord w e).1 e = some true)
    ∧ (send_to_discord w e).2 = Except.ok (w.respOk url) := by
  rw [send_to_discord_some w e url hwh]
  refine ⟨?_, ?_, rfl⟩
  · intro hr
    rw [hr]
    simp only [Bool.false_eq_true, if_false]
    show readFlagL (mark_entry_read e false (mark_entry_read e true w.entries)) e
        = some false
    apply readFlagL_mark
    rw [readFlagL_mark e true w.entries hin]
    rfl
  · intro hr
    rw [hr]
    simp only [if_true]
    exact readFlagL_mark e true w.entries hin

def entryC3 : Entry := { entry0 with id := "e3", feedUrl := "f3" }

def worldC3 : World :=
  { entries := [entryC3], tags := fun _ => { webhook := some "https://wh3" },
    updateResult := none, respOk := fun _ => false, sent := [] }

/-- C3 witness: dispatch against a transport that answers non-2xx reverts
the concrete entry to unread. -/
theorem c3_witness :
    worldC3.respOk "https://wh3" = false
    ∧ readFlag (send_to_discord worldC3 entryC3).1 entryC3 = some false :=
  ⟨rfl,
   (c3_read_flag_tracks_response worldC3 entryC3 "https://wh3" rfl rfl).1 rfl⟩

/-! ## C8 -/

/-- C8: storing a well-formed custom embed record (nine strings plus integer
color) and reading it back round-trips exactly, and when no `embed` tag is
set `get_embed` returns the default all-empty record with color `32896`. -/
theorem c8_embed_roundtrip (tags : FeedTags) (R : CustomEmbed) :
    get_embed (save_embed tags R) = R
    ∧ (tags.embed = none → get_embed tags = default_embed) := by
  constructor
  · rfl
  · intro h
    simp [get_embed, h]

def sampleEmbed : CustomEmbed :=
  { title := "T", description := "D", color := 5, author_name := "an",
    author_url := "au", author_icon_url := "ai", image_url := "iu",
    thumbnail_url := "tu", footer_text := "ft", footer_icon_url := "fi" }

/-- C8 witness: the round-trip and the default at a concrete record and an
empty tag set. -/
theorem c8_witness :
    get_embed (save_embed {} sampleEmbed) = sampleEmbed
    ∧ get_embed {} = default_embed :=
  ⟨(c8_embed_roundtrip {} sampleEmbed).1,
   (c8_embed_roundtrip {} sampleEmbed).2 rfl⟩

/-! ## C9 -/

/-- C9: the single-token substitution step never raises: when the replacement
value is incompatible (not a string, so `str.replace` raises `TypeError`),
`try_to_replace` returns the original template string unchanged, so one bad
token never aborts the whole render. -/
theorem c9_try_to_replace_absorbs (m t : String) (v : PyVal)
    (h : ∀ s, v ≠ PyVal.pyStr s) :
    str_replace_py m t v = Except.error "TypeError"
    ∧ try_to_replace m t v = m := by
  cases v with
  | pyStr s => exact absurd rfl (h s)
  | pyNone => exact ⟨rfl, rfl⟩
  | dt t' => exact ⟨rfl, rfl⟩
  | exc msg => exact ⟨rfl, rfl⟩

/-- C9 witness: a `None` replacement raises `TypeError` internally and the
template comes back unchanged. -/
theorem c9_witness :
    str_replace_py "a {{x}} b" "{{x}}" PyVal.pyNone = Except.error "TypeError"
    ∧ try_to_replace "a {{x}} b" "{{x}}" PyVal.pyNone = "a {{x}} b" :=
  c9_try_to_replace_absorbs "a {{x}} b" "{{x}}" PyVal.pyNone (fun _ h => nomatch h)


/-! ## C10 -/

theorem return_image_length (s : String) (l : List (String × String))
    (h : return_image s = Except.ok (some l)) : l.length ≤ 1 := by
  rw [return_image] at h
  cases hf : findImgs s.data with
  | nil => rw [hf] at h; cases h
  | cons img rest =>
    rw [hf] at h
    dsimp only at h
    cases hp : img_pair img with
    | error err => rw [hp] at h; cases h
    | ok p =>
      rw [hp] at h
      dsimp only at h
      rw [Except.ok.injEq, Option.some.injEq] at h
      subst h
      exact Nat.le.refl

theorem summary_images_length (e : Entry) (l : List (String × String))
    (h : summary_images e = Except.ok (some l)) : l.length ≤ 1 := by
  rw [summary_images] at h
  cases hs : e.summary with
  | none =>
    rw [hs] at h
    dsimp only at h
    rw [Except.ok.injEq, Option.some.injEq] at h
    subst h
    exact Nat.zero_le 1
  | some s =>
    rw [hs] at h
    dsimp only at h
    cases hse : s == "" with
    | true =>
      rw [hse] at h
      simp only [if_true] at h
      rw [Except.ok.injEq, Option.some.injEq] at h
      subst h
      exact Nat.zero_le 1
    | false =>
      rw [hse] at h
      simp only [Bool.false_eq_true, if_false] at h
      exact return_image_length s l h

/-- C10 (amended): whenever `get_images_from_entry` returns at all, its
result is at most one image — Python `None`, `[]`, or a single-element list
with one `(src, alt)` pair, never two or more — and when the entry has
content (and the summary scan returned), only the first content variant's
value is scanned; but for an entry whose first scanned `<img>` lacks a `src`
attribute the function raises `KeyError` instead of returning. -/
theorem c10_at_most_one_image (e : Entry) :
    (∀ l, get_images_from_entry e = Except.ok (some l) → l.length ≤ 1)
    ∧ (∀ ci rest imgs, e.content = ci :: rest →
        summary_images e = Except.ok imgs →
        get_images_from_entry e = return_image ci.value)
    ∧ (∀ img : ImgTag, img.src = none →
        img_pair img = Except.error (RenderErr.keyError "src")) := by
  refine ⟨?_, ?_, ?_⟩
  · intro l h
    rw [get_images_from_entry] at h
    cases hsi : summary_images e with
    | error err => rw [hsi] at h; cases h
    | ok imgs =>
      rw [hsi] at h
      dsimp only at h
      cases hc : e.content with
      | cons ci rest =>
        rw [hc] at h
        dsimp only at h
        exact return_image_length ci.value l h
      | nil =>
        rw [hc] at h
        dsimp only at h
        rw [Except.ok.injEq] at h
        subst h
        exact summary_images_length e l hsi
  · intro ci rest imgs hc hsi
    rw [get_images_from_entry, hsi, hc]
  · intro img hsrc
    rw [img_pair, hsrc]

def entryC10 : Entry :=
  { entry0 with id := "e10",
                summary := some "<p><img src='s.png'/></p>",
                content := [⟨"<img src='c.png' alt='C'/>"⟩] }

def entrySrcless : Entry :=
  { entry0 with id := "exk", summary := some "<img alt='a'>" }

/-- C10 counterexample: an entry whose summary's only `<img>` has no `src`
attribute makes `get_images_from_entry` raise `KeyError` — the result is an
exception, not the claimed "empty/absent or a single-element list". -/
theorem c10_counterexample :
    get_images_from_entry entrySrcless
        = Except.error (RenderErr.keyError "src")
    ∧ ∀ v : Option (List (String × String)),
        get_images_from_entry entrySrcless ≠ Except.ok v := by
  refine ⟨rfl, ?_⟩
  intro v h
  rw [show get_images_from_entry entrySrcless
      = Except.error (RenderErr.keyError "src") from rfl] at h
  exact Except.noConfusion h

/-- C10 witness: with both a summary image and a content image present (both
carrying `src`), the result comes from `content[0].value` alone and has
length at most one; and a `src`-less image tag is the `KeyError` case. -/
theorem c10_witness :
    get_images_from_entry entryC10 = return_image "<img src='c.png' alt='C'/>"
    ∧ [("c.png", "C")].length ≤ 1
    ∧ img_pair { src := none, alt := some "a" }
        = Except.error (RenderErr.keyError "src") :=
  ⟨(c10_at_most_one_image entryC10).2.1 ⟨"<img src='c.png' alt='C'/>"⟩ []
      (some [("s.png", "Link to image")]) rfl rfl,
   (c10_at_most_one_image entryC10).1 [("c.png", "C")] rfl,
   (c10_at_most_one_image entryC10).2.2 { src := none, alt := some "a" } rfl⟩

/-! ## C5 -/

/-- C5 (amended): a missing (`None`) attribute does not render as the empty
string — the substitution for its token raises `TypeError` inside
`try_to_replace`, is skipped, and the token is left verbatim in the rendered
output (shown for `{{feed_author}}` with `feed.author = None`); only the
computed tokens (including the `*_raw` ones) always substitute.  The
statement is conditioned on the render returning at all: an entry whose
first scanned `<img>` lacks a `src` attribute instead raises `KeyError` out
of the render. -/
theorem c5_none_leaves_token_verbatim (tags : FeedTags) (feed : Feed)
    (entry : Entry) (fi : String)
    (hmsg : tags.custom_message = some "{{feed_author}}")
    (hauthor : feed.author = none)
    (himg : first_image entry = Except.ok fi) :
    replace_tags_in_text_message tags feed entry
        = Except.ok "{{feed_author}}" := by
  have hcm : get_custom_message tags = "{{feed_author}}" := by
    rw [get_custom_message, hmsg]
    rfl
  rw [replace_tags_in_text_message, himg, hcm]
  dsimp only
  have hsplit : list_of_replacements feed entry fi =
      ("{{feed_author}}", optStr feed.author) ::
        (list_of_replacements feed entry fi).tail := rfl
  rw [hsplit]
  have hstep : apply_replacements "{{feed_author}}"
        (("{{feed_author}}", optStr feed.author) ::
          (list_of_replacements feed entry fi).tail)
      = apply_replacements "{{feed_author}}"
          ((list_of_replacements feed entry fi).tail) := by
    show apply_replacements
        (try_to_replace "{{feed_author}}" "{{feed_author}}" (optStr feed.author))
        ((list_of_replacements feed entry fi).tail) = _
    rw [hauthor]
    rfl
  rw [hstep]
  have htail : apply_replacements "{{feed_author}}"
      ((list_of_replacements feed entry fi).tail) = "{{feed_author}}" := by
    apply apply_replacements_id
    intro p hp
    left
    have hmem : p.1 ∈ ((list_of_replacements feed entry fi).tail).map Prod.fst :=
      List.mem_map_of_mem Prod.fst hp
    have htoks : ((list_of_replacements feed entry fi).tail).map Prod.fst
        = token_strings.tail := rfl
    rw [htoks] at hmem
    have hall : ∀ t ∈ token_strings.tail,
        containsSub t.data "{{feed_author}}".data = false := by decide
    exact hall p.1 hmem
  rw [htail]
  rw [pyReplace_of_not_contains "{{feed_author}}" "\\n" "\n" (by decide)]

def feedC5 : Feed := { feedA with author := none }

def tagsC5 : FeedTags := { custom_message := some "{{feed_author}}" }

/-- C5 counterexample: with `feed.author = None` the rendered output is the
token itself, left verbatim — not the empty string the claim requires. -/
theorem c5_counterexample :
    replace_tags_in_text_message tagsC5 feedC5 entry0
        = Except.ok "{{feed_author}}"
    ∧ ("{{feed_author}}" : String) ≠ "" :=
  ⟨rfl, by decide⟩

/-- C5 witness: the amended theorem at the concrete authorless feed (whose
sample entry's image scan returns `""`). -/
theorem c5_witness :
    replace_tags_in_text_message tagsC5 feedC5 entry0
        = Except.ok "{{feed_author}}" :=
  c5_none_leaves_token_verbatim tagsC5 feedC5 entry0 "" rfl rfl rfl

/-! ## C7 -/

/-- C7 (amended): rendering a template that contains no recognized
placeholder token and no literal `\n` escape returns it unchanged, for any
feed and any entry on which the render returns at all (an entry whose first
scanned `<img>` lacks a `src` attribute raises `KeyError` out of the render
instead); the trailing escape conversion means a token-free template
containing the two-character `\n` sequence is still modified. -/
theorem c7_render_id_on_token_free (tags : FeedTags) (feed : Feed)
    (entry : Entry) (T : String) (fi : String)
    (hmsg : tags.custom_message = some T)
    (himg : first_image entry = Except.ok fi)
    (htok : ∀ t ∈ token_strings, containsSub t.data T.data = false)
    (hesc : containsSub "\\n".data T.data = false) :
    replace_tags_in_text_message tags feed entry = Except.ok T := by
  have hcm : get_custom_message tags = T := by
    rw [get_custom_message, hmsg]
    rfl
  rw [replace_tags_in_text_message, himg, hcm]
  dsimp only
  have happ : apply_replacements T (list_of_replacements feed entry fi) = T := by
    apply apply_replacements_id
    intro p hp
    left
    have hmem : p.1 ∈ (list_of_replacements feed entry fi).map Prod.fst :=
      List.mem_map_of_mem Prod.fst hp
    rw [list_of_replacements_fst] at hmem
    exact htok p.1 hmem
  rw [happ]
  rw [pyReplace_of_not_contains T "\\n" "\n" hesc]

def tagsC7 : FeedTags := { custom_message := some "plain text, no tokens" }

/-- C7 witness: a token-free, escape-free template renders to itself. -/
theorem c7_witness :
    replace_tags_in_text_message tagsC7 feedA entry0
        = Except.ok "plain text, no tokens" :=
  c7_render_id_on_token_free tagsC7 feedA entry0 "plain text, no tokens" ""
    rfl rfl (by decide) (by decide)

def tagsC7x : FeedTags := { custom_message := some "a\\nb" }

/-- C7 counterexample: the template `a\n b` (with a literal backslash-n)
contains no recognized token, yet rendering converts the escape, so
`render(T) = T` fails as stated. -/
theorem c7_counterexample :
    replace_tags_in_text_message tagsC7x feedA entry0 = Except.ok "a\nb"
    ∧ ("a\nb" : String) ≠ "a\\nb"
    ∧ (∀ t ∈ token_strings, containsSub t.data "a\\nb".data = false) :=
  ⟨rfl, by decide, by decide⟩

/-! ## C6 -/

def entryC6 : Entry :=
  { entry0 with id := "e6", summary := some "<p>Hello <img src='x.png'/></p>" }

def tagsC6 : FeedTags := { custom_message := some "{{entry_text}} {{image_1}}" }

/-- C6 (amended): the representative image is the first `<img>` of the first
content variant whenever the entry has content (and the preceding summary
scan returned) — the content scan overwrites the summary scan rather than
being consulted only after it — and only for content-less entries is the
summary's first `<img>` used; the alt text defaults to `"Link to image"`
when the `alt` attribute is absent, provided the `<img>` has a `src`
attribute — without one the loop body raises `KeyError` before any alt text
is computed; the concrete scenario (summary `<p>Hello <img src='x.png'/></p>`,
template `{{entry_text}} {{image_1}}`) renders a message containing `Hello`
and `x.png`. -/
theorem c6_image_selection :
    (∀ (e : Entry) (ci : ContentItem) (rest : List ContentItem)
        (imgs : Option (List (String × String))),
        e.content = ci :: rest → summary_images e = Except.ok imgs →
        get_images_from_entry e = return_image ci.value)
    ∧ (∀ (e : Entry) (s : String), e.content = [] → e.summary = some s →
        (s == "") = false → get_images_from_entry e = return_image s)
    ∧ (∀ (img : ImgTag) (s : String), img.src = some s → img.alt = none →
        img_pair img
          = Except.ok ((if s == "" then "" else s), "Link to image"))
    ∧ (∀ img : ImgTag, img.src = none →
        img_pair img = Except.error (RenderErr.keyError "src"))
    ∧ replace_tags_in_text_message tagsC6 feedA entryC6
        = Except.ok "Hello  x.png"
    ∧ containsSub "Hello".data "Hello  x.png".data = true
    ∧ containsSub "x.png".data "Hello  x.png".data = true := by
  refine ⟨?_, ?_, ?_, ?_, rfl, by decide, by decide⟩
  · intro e ci rest imgs hc hsi
    rw [get_images_from_entry, hsi, hc]
  · intro e s hc hs hse
    have hsi : summary_images e = return_image s := by
      rw [summary_images, hs]
      dsimp only
      rw [hse]
      rfl
    rw [get_images_from_entry, hsi]
    cases hri : return_image s with
    | error err => rfl
    | ok v => rw [hc]
  · intro img s hsrc halt
    rw [img_pair, hsrc, halt]
  · intro img hsrc
    rw [img_pair, hsrc]

def entryC6x : Entry :=
  { entry0 with id := "e6x", summary := some "<img src='s.png'/>",
                content := [⟨"<img src='c.png'/>"⟩] }

/-- C6 counterexample: the summary's first `<img>` is `s.png`, yet the
selected representative image is `c.png` from the content — the content scan
is not "only after" the summary, it overrides it. -/
theorem c6_counterexample :
    return_image "<img src='s.png'/>"
        = Except.ok (some [("s.png", "Link to image")])
    ∧ get_images_from_entry entryC6x
        = Except.ok (some [("c.png", "Link to image")])
    ∧ ("c.png" : String) ≠ "s.png" :=
  ⟨rfl, rfl, by decide⟩

/-- C6 witness: the amended theorem's parts at concrete entries. -/
theorem c6_witness :
    get_images_from_entry entryC6x = return_image "<img src='c.png'/>"
    ∧ get_images_from_entry entryC6
        = return_image "<p>Hello <img src='x.png'/></p>"
    ∧ img_pair { src := some "x.png", alt := none }
        = Except.ok ("x.png", "Link to image")
    ∧ img_pair { src := none, alt := none }
        = Except.error (RenderErr.keyError "src") :=
  ⟨c6_image_selection.1 entryC6x ⟨"<img src='c.png'/>"⟩ []
      (some [("s.png", "Link to image")]) rfl rfl,
   c6_image_selection.2.1 entryC6 "<p>Hello <img src='x.png'/></p>" rfl rfl
     (by decide),
   c6_image_selection.2.2.1 { src := some "x.png", alt := none } "x.png" rfl rfl,
   c6_image_selection.2.2.2.1 { src := none, alt := none } rfl⟩

/-! ## C2 -/

/-- The destination URL an entry is sent to under a tag store. -/
def webhook_under (tagsF : String → FeedTags) (e : Entry) : String :=
  (truthy_str ((tagsF e.feedUrl).webhook)).getD ""

theorem send_all_sent_log (tagsF : String → FeedTags) :
    ∀ (es : List Entry) (w : World), w.tags = tagsF →
      (∀ e ∈ es, (truthy_str ((tagsF e.feedUrl).webhook)).isSome = true) →
      (send_all w es).1.sent
          = w.sent ++ es.map (fun e => (webhook_under tagsF e, message_content e))
        ∧ (send_all w es).1.tags = tagsF
        ∧ (send_all w es).2 = Except.ok () := by
  intro es
  induction es with
  | nil =>
    intro w htags _
    exact ⟨by simp [send_all], htags, rfl⟩
  | cons e rest ih =>
    intro w htags h
    have hw : (truthy_str ((tagsF e.feedUrl).webhook)).isSome = true :=
      h e (List.mem_cons_self e rest)
    obtain ⟨url, hurl⟩ : ∃ u, truthy_str ((tagsF e.feedUrl).webhook) = some u := by
      cases hu : truthy_str ((tagsF e.feedUrl).webhook) with
      | some u => exact ⟨u, rfl⟩
      | none => rw [hu] at hw; simp at hw
    have hurl' : truthy_str ((w.tags e.feedUrl).webhook) = some url := by
      rw [htags]; exact hurl
    have hsend := send_to_discord_some w e url hurl'
    have hstep : send_all w (e :: rest)
        = send_all (send_to_discord w e).1 rest := by
      rw [send_all, hsend]
    have hsent1 : (send_to_discord w e).1.sent
        = w.sent ++ [(url, message_content e)] := by
      rw [hsend]
      cases hok : w.respOk url <;> simp [hok]
    have htags1 : (send_to_discord w e).1.tags = tagsF := by
      rw [hsend]
      cases hok : w.respOk url <;> simp [hok, htags]
    have ihr := ih (send_to_discord w e).1 htags1
      (fun e' he' => h e' (List.mem_cons_of_mem e he'))
    have hwe : webhook_under tagsF e = url := by
      rw [webhook_under, hurl]
      rfl
    refine ⟨?_, by rw [hstep]; exact ihr.2.1, by rw [hstep]; exact ihr.2.2⟩
    rw [hstep, ihr.1, hsent1, List.map_cons, hwe, List.append_assoc,
      List.singleton_append]

/-- C2 (amended): `check_feed` performs no whitelist/blacklist admission at
all — after a successful refresh it dispatches every unread entry of the
feed, in stored order, whenever each has a bound webhook, so entries the Rule
Evaluator rejects are dispatched (and read-marked) like any other. -/
theorem c2_check_feed_dispatches_all (w : World) (url : String)
    (hup : w.updateResult = none)
    (hwh : ∀ e ∈ unread_entries w url,
        (truthy_str ((w.tags e.feedUrl).webhook)).isSome = true) :
    (check_feed w url).1.sent
        = w.sent ++ (unread_entries w url).map
            (fun e => (webhook_under w.tags e, message_content e))
    ∧ (check_feed w url).2 = Except.ok () := by
  have h := send_all_sent_log w.tags (unread_entries w url) w rfl hwh
  have hcf : check_feed w url = send_all w (unread_entries w url) := by
    simp [check_feed, hup]
  rw [hcf]
  exact ⟨h.1, h.2.2⟩

def entryC2x : Entry :=
  { entry0 with id := "spam1", feedUrl := "f2x", title := some "SPAM alert" }

def tagsC2x : FeedTags :=
  { webhook := some "https://whx", blacklist_title := some "spam" }

def worldC2x : World :=
  { entries := [entryC2x], tags := fun _ => tagsC2x, updateResult := none,
    respOk := fun _ => true, sent := [] }

/-- C2 counterexample: an entry the Rule Evaluator rejects (blacklisted
title, case-insensitive match of "spam" against "SPAM alert") is nonetheless
dispatched by `check_feed`, and its read flag is set to `true` — both the
"only admitted entries are dispatched" and the "rejected entry's read flag
is left untouched (still unread)" parts of the claim fail on the code, which
never invokes the evaluator. -/
theorem c2_counterexample :
    evaluator_admits tagsC2x entryC2x = false
    ∧ entry_is_blacklisted tagsC2x entryC2x = true
    ∧ (check_feed worldC2x "f2x").1.sent
        = [("https://whx", message_content entryC2x)]
    ∧ readFlag (check_feed worldC2x "f2x").1 entryC2x = some true :=
  ⟨by decide, by decide, by decide, by decide⟩

def entryC2 : Entry := { entry0 with id := "e2", feedUrl := "f2" }

def worldC2 : World :=
  { entries := [entryC2], tags := fun _ => { webhook := some "https://wh2" },
    updateResult := none, respOk := fun _ => true, sent := [] }

/-- C2 witness: the amended theorem at a concrete single-entry world. -/
theorem c2_witness :
    (check_feed worldC2 "f2").1.sent
      = worldC2.sent ++ (unread_entries worldC2 "f2").map
          (fun e => (webhook_under worldC2.tags e, message_content e)) :=
  (c2_check_feed_dispatches_all worldC2 "f2" rfl (by decide)).1

/-! ## C4 -/

/-- C4 (amended): the single-feed helper `update_feed` catches the
feed-store errors (feed not found, parse failure, storage failure) and
returns a structured `IfFeedError` descriptor instead of propagating — but
`check_feeds` itself installs no per-feed handler and does not call
`update_feed`, so a feed-store error raised during the batch refresh
propagates to `check_feeds`'s caller and aborts the whole batch. -/
theorem c4_update_feed_catches_check_feeds_propagates :
    (∀ (w : World) (url wh : String),
        (update_feed w url wh).error = w.updateResult.isSome
        ∧ (update_feed w url wh).feed_url = url
        ∧ (update_feed w url wh).webhook = wh)
    ∧ (∀ (w : World) (err : FeedErr), w.updateResult = some err →
        check_feeds w = (w, Except.error (PipeErr.feedStore err))) := by
  constructor
  · intro w url wh
    cases h : w.updateResult with
    | none => simp [update_feed, h]
    | some err => cases err <;> simp [update_feed, h]
  · intro w err h
    simp [check_feeds, h]

def entryC4 : Entry := { entry0 with id := "e4", feedUrl := "f4" }

def worldC4 : World :=
  { entries := [entryC4], tags := fun _ => { webhook := some "https://wh4" },
    updateResult := some FeedErr.storageError, respOk := fun _ => true,
    sent := [] }

/-- C4 counterexample: a storage failure from the batch refresh propagates
out of `check_feeds` — with an unread, webhook-bound entry pending, the
batch aborts with the error and nothing is dispatched, contradicting "the
batch operation never propagates a per-feed feed-store error to its
caller". -/
theorem c4_counterexample :
    check_feeds worldC4
        = (worldC4, Except.error (PipeErr.feedStore FeedErr.storageError))
    ∧ (check_feeds worldC4).1.sent = []
    ∧ worldC4.entries.filter (fun e => !e.read) ≠ [] :=
  ⟨rfl, rfl, by decide⟩

/-- C4 witness: the amended theorem's two parts at the concrete failing
world. -/
theorem c4_witness :
    (update_feed worldC4 "https://u" "wh").error = true
    ∧ check_feeds worldC4
        = (worldC4, Except.error (PipeErr.feedStore FeedErr.storageError)) :=
  ⟨((c4_update_feed_catches_check_feeds_propagates.1 worldC4 "https://u" "wh").1).trans rfl,
   c4_update_feed_catches_check_feeds_propagates.2 worldC4 FeedErr.storageError rfl⟩
